import Mathlib

/-!
Shallow embedding of `src/demo/test-server.py` (cytoquery demo server).

The script subclasses Python's `http.server.SimpleHTTPRequestHandler`,
overriding `end_headers` (to append three CORS headers to the queued header
buffer before it is flushed) and `do_GET` (to rewrite the exact path "/" to
"/index.html" before delegating to the base handler), changes the process
working directory to the directory containing the script, prints two startup
lines, binds a TCP server on port 8000, serves forever, and on
KeyboardInterrupt prints a shutdown line and exits with status 0.

Pure functions below are translated from the source; the behaviour of the
Python standard-library base handler (which is not part of this repository's
sources) is modelled from the specification's description of it, and each
such definition says so in its doc comment.
-/

namespace TestServer

/-- Source line `PORT = 8000`. -/
def PORT : Nat := 8000

/-- A queued response header: name and value, as passed to `send_header`. -/
abbrev Header := String × String

/-- Modelled from the spec: `BaseHTTPRequestHandler.send_header` (Python
standard library, not under src/) appends one header to the per-response
header buffer; it never removes or replaces a queued header. -/
def send_header (buf : List Header) (keyword value : String) : List Header :=
  buf ++ [(keyword, value)]

namespace SimpleHTTPRequestHandler

/-- Modelled from the spec: the base `end_headers` finalizes the buffered
header block and sends it; the finalized block is exactly the buffer. -/
def end_headers (buf : List Header) : List Header :=
  buf

end SimpleHTTPRequestHandler

/-- The three CORS headers the subclass injects, in source order
(src/demo/test-server.py lines 14-16). -/
def corsHeaders : List Header :=
  [("Access-Control-Allow-Origin", "*"),
   ("Access-Control-Allow-Methods", "GET, POST, OPTIONS"),
   ("Access-Control-Allow-Headers", "Content-Type")]

namespace MyHTTPRequestHandler

/-- Source: `MyHTTPRequestHandler.end_headers` (lines 12-17): three
`send_header` calls adding the CORS headers, then `super().end_headers()`. -/
def end_headers (buf : List Header) : List Header :=
  SimpleHTTPRequestHandler.end_headers
    (send_header
      (send_header
        (send_header buf "Access-Control-Allow-Origin" "*")
        "Access-Control-Allow-Methods" "GET, POST, OPTIONS")
      "Access-Control-Allow-Headers" "Content-Type")

end MyHTTPRequestHandler

/-- Result of resolving a request path against the root directory, as the
base static-file handler sees it. -/
inductive Lookup where
  /-- The path resolves to a readable regular file with these bytes. -/
  | found (bytes : List Nat)
  /-- No file exists at the resolved location. -/
  | missing
  /-- A file exists but the process may not read it. -/
  | unreadable
  /-- The path would escape the root directory (path traversal). -/
  | outsideRoot
deriving DecidableEq, Repr

/-- The state of the served directory: what each request path resolves to. -/
def FileSystem := String → Lookup

/-- An HTTP response: status code, finalized header block, body bytes. -/
structure Response where
  status : Nat
  headers : List Header
  body : List Nat
deriving DecidableEq, Repr

/-- Every response the subclass produces has its header block finalized by
`MyHTTPRequestHandler.end_headers`, since the base machinery calls
`self.end_headers()` for every response it writes (success or error). -/
def finalizeResponse (status : Nat) (queued : List Header) (body : List Nat) :
    Response :=
  { status := status
    headers := MyHTTPRequestHandler.end_headers queued
    body := body }

/-- Modelled from the spec: `SimpleHTTPRequestHandler.do_GET` (Python standard
library, not under src/). An existing readable file is served with status 200
and its bytes; a missing file gets a standard 404; an unreadable file a 403;
a path that would escape the root is refused with 404 rather than served.
All error responses are ordinary responses with an empty modelled body (the
stdlib HTML error page is abstracted), never raised exceptions. -/
def SimpleHTTPRequestHandler.do_GET (fs : FileSystem) (path : String) :
    Response :=
  match fs path with
  | .found bytes => finalizeResponse 200 [("Content-Length", toString bytes.length)] bytes
  | .missing => finalizeResponse 404 [] []
  | .unreadable => finalizeResponse 403 [] []
  | .outsideRoot => finalizeResponse 404 [] []

/-- Modelled from the spec: `SimpleHTTPRequestHandler.do_HEAD` (Python
standard library, not under src/): same status logic as GET, empty body. -/
def SimpleHTTPRequestHandler.do_HEAD (fs : FileSystem) (path : String) :
    Response :=
  match fs path with
  | .found bytes => finalizeResponse 200 [("Content-Length", toString bytes.length)] []
  | .missing => finalizeResponse 404 [] []
  | .unreadable => finalizeResponse 403 [] []
  | .outsideRoot => finalizeResponse 404 [] []

/-- Source lines 21-22: `if self.path == '/': self.path = '/index.html'`. -/
def rewritePath (path : String) : String :=
  if path = "/" then "/index.html" else path

/-- Source: `MyHTTPRequestHandler.do_GET` (lines 19-23): rewrite the path,
then `return super().do_GET()`. -/
def MyHTTPRequestHandler.do_GET (fs : FileSystem) (path : String) : Response :=
  SimpleHTTPRequestHandler.do_GET fs (rewritePath path)

/-- Modelled from the spec: the base machinery dispatches on the HTTP method
name, calling the handler method `do_<METHOD>` when it exists and answering
501 (unsupported method) otherwise. On `MyHTTPRequestHandler`, GET hits the
overridden `do_GET`; HEAD falls through to the inherited base `do_HEAD`;
every other method has no handler method and is answered 501. -/
def handleRequest (fs : FileSystem) (method path : String) : Response :=
  if method = "GET" then MyHTTPRequestHandler.do_GET fs path
  else if method = "HEAD" then SimpleHTTPRequestHandler.do_HEAD fs path
  else finalizeResponse 501 [] []

/-- Modelled from the spec: the same dispatch on the base handler alone,
without the subclass's GET override (the header finalization still goes
through the subclass, which handles the connection). Used to state that
non-GET methods fall through to base behaviour unchanged. -/
def baseHandleRequest (fs : FileSystem) (method path : String) : Response :=
  if method = "GET" then SimpleHTTPRequestHandler.do_GET fs path
  else if method = "HEAD" then SimpleHTTPRequestHandler.do_HEAD fs path
  else finalizeResponse 501 [] []

/-- The serve loop: each accepted request is handled to a response and the
loop continues with the next; no request outcome stops the loop. -/
def serveAll (fs : FileSystem) (reqs : List (String × String)) :
    List Response :=
  reqs.map fun r => handleRequest fs r.1 r.2

/-- An observable process-level event of the script's top level. -/
inductive Event where
  /-- A line written to stdout by `print(...)`. -/
  | printLine (s : String)
  /-- The listening socket is bound (`socketserver.TCPServer((\x22\x22, PORT), ...)`). -/
  | bindPort (p : Nat)
  /-- The accept loop runs (`httpd.serve_forever()`), handling requests until
  the interrupt arrives; no new connection is accepted after this event. -/
  | serveRequests
  /-- The process exits with this status code (`sys.exit(0)`). -/
  | exitCode (c : Nat)
  /-- An uncaught fatal error aborts startup (bind failure). -/
  | fatalError
deriving DecidableEq, Repr

/-- Source line 28: the startup line containing the listening URL. -/
def startupLine : String := "Starting server at http://localhost:" ++ toString PORT

/-- Source line 29. -/
def ctrlCLine : String := "Press Ctrl+C to stop"

/-- Source line 35: the shutdown notice printed on KeyboardInterrupt. -/
def shutdownLine : String := "\nServer stopped."

/-- Source lines 26-36, the module top level in order: print the two startup
lines, construct the `TCPServer` (which binds the listening socket, raising a
fatal uncaught error on failure — `bindOk` abstracts that outcome), run
`serve_forever()` until KeyboardInterrupt, then print the shutdown notice
and `sys.exit(0)`. -/
def mainEvents (bindOk : Bool) : List Event :=
  [.printLine startupLine, .printLine ctrlCLine] ++
    if bindOk then
      [.bindPort PORT, .serveRequests, .printLine shutdownLine, .exitCode 0]
    else
      [.fatalError]

/-- A filesystem operation the process performs. A read or write names the
directory it is resolved against and the request-relative path, mirroring how
the base handler's `translate_path` joins the working directory with the
request path. -/
inductive FsOp where
  /-- `os.chdir(d)`. -/
  | chdirOp (d : String)
  /-- Open and read the file at `rel` resolved under directory `dir`. -/
  | readOp (dir rel : String)
  /-- Write the file at `rel` resolved under directory `dir` (never emitted). -/
  | writeOp (dir rel : String)
deriving DecidableEq, Repr

/-- Filesystem operations of one handled request: the base handler opens and
reads the resolved file exactly when the lookup finds a readable file (for
GET after the subclass's rewrite, for HEAD as given); error responses and
unsupported methods touch no file; nothing is ever written. -/
def requestFsOps (cwd : String) (fs : FileSystem) (method path : String) :
    List FsOp :=
  if method = "GET" then
    match fs (rewritePath path) with
    | .found _ => [.readOp cwd (rewritePath path)]
    | _ => []
  else if method = "HEAD" then
    match fs path with
    | .found _ => [.readOp cwd path]
    | _ => []
  else []

/-- The whole process's filesystem trace: source line 26 changes the working
directory to `entryDir` (the directory containing the script's own file,
`os.path.dirname(os.path.abspath(__file__))`), then every request is served
with lookups resolved against that directory. -/
def serverFsOps (entryDir : String) (fs : FileSystem)
    (reqs : List (String × String)) : List FsOp :=
  FsOp.chdirOp entryDir ::
    reqs.foldr (fun r acc => requestFsOps entryDir fs r.1 r.2 ++ acc) []

/-- Decides that a filesystem operation stays under `entryDir` and is not a
write: reads resolve against `entryDir`, the only chdir targets `entryDir`,
and writes are forbidden outright. -/
def opReadsUnderDir (entryDir : String) : FsOp → Bool
  | .chdirOp d => d == entryDir
  | .readOp d _ => d == entryDir
  | .writeOp _ _ => false

/-- Example filesystem in which every path is missing. -/
def missingFs : FileSystem := fun _ => Lookup.missing

/-- Example filesystem in which every path escapes the root. -/
def escapingFs : FileSystem := fun _ => Lookup.outsideRoot

/-- Example filesystem serving one demo page. -/
def demoFs : FileSystem := fun p =>
  if p = "/index.html" then Lookup.found [104, 105] else Lookup.missing

/-! Helper lemmas shared by the claim theorems. -/

theorem end_headers_eq_append (buf : List Header) :
    MyHTTPRequestHandler.end_headers buf = buf ++ corsHeaders := by
  simp [MyHTTPRequestHandler.end_headers, SimpleHTTPRequestHandler.end_headers,
    send_header, corsHeaders]

theorem finalizeResponse_headers (s : Nat) (q : List Header) (b : List Nat) :
    (finalizeResponse s q b).headers = q ++ corsHeaders := by
  simp [finalizeResponse, end_headers_eq_append]

theorem headers_finalized (fs : FileSystem) (method path : String) :
    ∃ queued, (handleRequest fs method path).headers = queued ++ corsHeaders := by
  unfold handleRequest MyHTTPRequestHandler.do_GET SimpleHTTPRequestHandler.do_GET
    SimpleHTTPRequestHandler.do_HEAD
  repeat' split
  all_goals exact ⟨_, finalizeResponse_headers _ _ _⟩

theorem requestFsOps_all (entryDir : String) (fs : FileSystem) (m p : String) :
    (requestFsOps entryDir fs m p).all (opReadsUnderDir entryDir) = true := by
  unfold requestFsOps
  split
  · split <;> simp [opReadsUnderDir]
  · split
    · split <;> simp [opReadsUnderDir]
    · rfl

/-! Claim theorems. -/

/-- C1: every HTTP response the server produces, regardless of method and of
status code, contains the three CORS headers with exactly the specified
values, injected unconditionally where the header block is finalized. -/
theorem cors_headers_on_every_response (fs : FileSystem) (method path : String) :
    ("Access-Control-Allow-Origin", "*") ∈ (handleRequest fs method path).headers ∧
    ("Access-Control-Allow-Methods", "GET, POST, OPTIONS") ∈ (handleRequest fs method path).headers ∧
    ("Access-Control-Allow-Headers", "Content-Type") ∈ (handleRequest fs method path).headers := by
  obtain ⟨q, hq⟩ := headers_finalized fs method path
  rw [hq]
  refine ⟨?_, ?_, ?_⟩ <;> simp [corsHeaders]

/-- C2: a GET request for exactly the path slash is rewritten to
"/index.html" before any file lookup, so its response (status, headers and
body bytes) equals the response for requesting "/index.html" directly. -/
theorem root_request_equals_index_request (fs : FileSystem) :
    rewritePath "/" = "/index.html" ∧
    handleRequest fs "GET" "/" = handleRequest fs "GET" "/index.html" :=
  ⟨rfl, rfl⟩

/-- C3: a GET whose path does not resolve to a readable file under the root
(missing, traversal outside root, or unreadable) is answered with a normal
client-error response (status in the 4xx range), and the serve loop still
produces one response per request — no per-request file error terminates the
server. -/
theorem per_request_file_errors_yield_client_error (fs : FileSystem)
    (path : String) (reqs : List (String × String))
    (h : ∀ b, fs (rewritePath path) ≠ Lookup.found b) :
    400 ≤ (handleRequest fs "GET" path).status ∧
    (handleRequest fs "GET" path).status < 500 ∧
    (serveAll fs reqs).length = reqs.length := by
  have hedge : handleRequest fs "GET" path =
      SimpleHTTPRequestHandler.do_GET fs (rewritePath path) := rfl
  cases hfs : fs (rewritePath path) with
  | found b => exact absurd hfs (h b)
  | missing =>
      refine ⟨?_, ?_, by simp [serveAll]⟩ <;>
        simp [hedge, SimpleHTTPRequestHandler.do_GET, hfs, finalizeResponse]
  | unreadable =>
      refine ⟨?_, ?_, by simp [serveAll]⟩ <;>
        simp [hedge, SimpleHTTPRequestHandler.do_GET, hfs, finalizeResponse]
  | outsideRoot =>
      refine ⟨?_, ?_, by simp [serveAll]⟩ <;>
        simp [hedge, SimpleHTTPRequestHandler.do_GET, hfs, finalizeResponse]

/-- Witness for C3 at a concrete missing path. -/
theorem per_request_file_errors_yield_client_error_case :
    400 ≤ (handleRequest missingFs "GET" "/no-such-file").status ∧
    (handleRequest missingFs "GET" "/no-such-file").status < 500 ∧
    (serveAll missingFs [("GET", "/no-such-file")]).length =
      [(("GET" : String), ("/no-such-file" : String))].length :=
  per_request_file_errors_yield_client_error missingFs "/no-such-file"
    [("GET", "/no-such-file")] (fun b hb => by simp [missingFs] at hb)

/-- C4: once the interrupt ends the accept loop, the script prints the
shutdown notice and exits with status code 0, and no further event follows —
in particular no further connection is accepted. -/
theorem interrupt_prints_notice_and_exits_zero :
    ∃ pre, mainEvents true =
      pre ++ [Event.serveRequests, Event.printLine shutdownLine, Event.exitCode 0] :=
  ⟨[.printLine startupLine, .printLine ctrlCLine, .bindPort PORT], rfl⟩

/-- C5: a GET whose path is not exactly the root slash is passed to the base
handler unchanged, and the base handler refuses a path that would escape the
root directory with a 404 error response instead of serving file content. -/
theorem non_root_identity_and_traversal_refused (fs g : FileSystem)
    (path : String) (h1 : path ≠ "/") (h2 : g path = Lookup.outsideRoot) :
    MyHTTPRequestHandler.do_GET fs path = SimpleHTTPRequestHandler.do_GET fs path ∧
    (MyHTTPRequestHandler.do_GET g path).status = 404 ∧
    (MyHTTPRequestHandler.do_GET g path).body = [] := by
  have hr : rewritePath path = path := by simp [rewritePath, h1]
  refine ⟨by simp only [MyHTTPRequestHandler.do_GET, hr], ?_, ?_⟩ <;>
    simp [MyHTTPRequestHandler.do_GET, hr, SimpleHTTPRequestHandler.do_GET, h2,
      finalizeResponse]

/-- Witness for C5 at a concrete traversal path. -/
theorem non_root_identity_and_traversal_refused_case :
    MyHTTPRequestHandler.do_GET demoFs "/../secret" =
      SimpleHTTPRequestHandler.do_GET demoFs "/../secret" ∧
    (MyHTTPRequestHandler.do_GET escapingFs "/../secret").status = 404 ∧
    (MyHTTPRequestHandler.do_GET escapingFs "/../secret").body = [] :=
  non_root_identity_and_traversal_refused demoFs escapingFs "/../secret"
    (by decide) rfl

/-- C6: only GET has custom logic; any other method falls through to the base
handler unchanged — HEAD to the inherited base do_HEAD (permitted), every
remaining method to the base machinery's 501 rejection. -/
theorem non_get_methods_fall_through (fs : FileSystem) (method path : String)
    (hg : method ≠ "GET") (hh : method ≠ "HEAD") :
    handleRequest fs method path = baseHandleRequest fs method path ∧
    (handleRequest fs method path).status = 501 ∧
    handleRequest fs "HEAD" path = SimpleHTTPRequestHandler.do_HEAD fs path ∧
    handleRequest fs "GET" path = MyHTTPRequestHandler.do_GET fs path := by
  refine ⟨?_, ?_, rfl, rfl⟩ <;>
    simp [handleRequest, baseHandleRequest, hg, hh, finalizeResponse]

/-- Witness for C6 at the concrete method POST. -/
theorem non_get_methods_fall_through_case :
    handleRequest demoFs "POST" "/index.html" =
      baseHandleRequest demoFs "POST" "/index.html" ∧
    (handleRequest demoFs "POST" "/index.html").status = 501 ∧
    handleRequest demoFs "HEAD" "/index.html" =
      SimpleHTTPRequestHandler.do_HEAD demoFs "/index.html" ∧
    handleRequest demoFs "GET" "/index.html" =
      MyHTTPRequestHandler.do_GET demoFs "/index.html" :=
  non_get_methods_fall_through demoFs "POST" "/index.html" (by decide) (by decide)

/-- C7: the process changes directory once, to the directory containing its
own entry point, and every filesystem operation it then performs is a read
resolved against that directory; no operation is a write. -/
theorem server_reads_only_under_entry_dir (entryDir : String) (fs : FileSystem)
    (reqs : List (String × String)) :
    (serverFsOps entryDir fs reqs).all (opReadsUnderDir entryDir) = true := by
  unfold serverFsOps
  rw [List.all_cons]
  have hchdir : opReadsUnderDir entryDir (.chdirOp entryDir) = true := by
    simp [opReadsUnderDir]
  rw [hchdir, Bool.true_and]
  induction reqs with
  | nil => rfl
  | cons r rs ih =>
      rw [List.foldr_cons, List.all_append, ih, Bool.and_true]
      exact requestFsOps_all entryDir fs r.1 r.2

/-- C8: the root rewrite fires only when the path is exactly the one-character
string slash; other root-denoting spellings (query form, double slash, dot
form) are passed to the base handler as given. -/
theorem rewrite_requires_exact_root_path (fs : FileSystem) (path : String)
    (h : path ≠ "/") :
    rewritePath path = path ∧
    MyHTTPRequestHandler.do_GET fs "/?query=1" =
      SimpleHTTPRequestHandler.do_GET fs "/?query=1" ∧
    MyHTTPRequestHandler.do_GET fs "//" = SimpleHTTPRequestHandler.do_GET fs "//" ∧
    MyHTTPRequestHandler.do_GET fs "/." = SimpleHTTPRequestHandler.do_GET fs "/." ∧
    rewritePath "/" = "/index.html" :=
  ⟨by simp [rewritePath, h], rfl, rfl, rfl, rfl⟩

/-- Witness for C8 at a concrete non-root path. -/
theorem rewrite_requires_exact_root_path_case :
    rewritePath "/style.css" = "/style.css" ∧
    MyHTTPRequestHandler.do_GET missingFs "/?query=1" =
      SimpleHTTPRequestHandler.do_GET missingFs "/?query=1" ∧
    MyHTTPRequestHandler.do_GET missingFs "//" =
      SimpleHTTPRequestHandler.do_GET missingFs "//" ∧
    MyHTTPRequestHandler.do_GET missingFs "/." =
      SimpleHTTPRequestHandler.do_GET missingFs "/." ∧
    rewritePath "/" = "/index.html" :=
  rewrite_requires_exact_root_path missingFs "/style.css" (by decide)

/-- C9: the startup line with the listening URL is printed strictly before
the socket bind, whether or not the bind succeeds; on bind failure the
startup line still precedes the fatal error. -/
theorem startup_line_printed_before_bind (bindOk : Bool) :
    (mainEvents bindOk).indexOf (Event.printLine startupLine) <
      (mainEvents bindOk).indexOf (Event.bindPort PORT) ∧
    (mainEvents bindOk).indexOf (Event.printLine startupLine) <
      (mainEvents bindOk).indexOf Event.fatalError := by
  cases bindOk <;> exact ⟨by decide, by decide⟩

/-- C10: the subclass end_headers appends the three CORS headers after every
header already queued, removing or replacing none, so a same-named queued
header survives alongside the injected one (both occurrences present). -/
theorem cors_appended_after_queued_headers (buf : List Header) :
    MyHTTPRequestHandler.end_headers buf = buf ++ corsHeaders ∧
    buf <+: MyHTTPRequestHandler.end_headers buf ∧
    (MyHTTPRequestHandler.end_headers buf).count ("Access-Control-Allow-Origin", "*") =
      buf.count ("Access-Control-Allow-Origin", "*") + 1 ∧
    (MyHTTPRequestHandler.end_headers buf).count
        ("Access-Control-Allow-Methods", "GET, POST, OPTIONS") =
      buf.count ("Access-Control-Allow-Methods", "GET, POST, OPTIONS") + 1 ∧
    (MyHTTPRequestHandler.end_headers buf).count
        ("Access-Control-Allow-Headers", "Content-Type") =
      buf.count ("Access-Control-Allow-Headers", "Content-Type") + 1 := by
  refine ⟨end_headers_eq_append buf, ?_, ?_, ?_, ?_⟩ <;> rw [end_headers_eq_append]
  · exact List.prefix_append _ _
  all_goals
    rw [List.count_append]
    congr 1

end TestServer
